import Mathlib

/-!
Shallow embedding of the RAG chatbot service (`lanchain_chotbot.py`) and its
ask-question HTTP endpoint (`app.py`).

The service object `RAGServiceModern` holds four mutable fields: an optional
FAISS vectorstore, an optional retriever (the vectorstore wrapped with
`search_kwargs = k 3`), an in-memory chat history, and an optional LCEL
rag_chain built from the retriever.  External collaborators (the PDF loader,
the embedding service / FAISS build, disk persistence, the similarity search
and the Ollama generation backend) are modelled as oracle environments passed
to each operation: each oracle field records whether the corresponding
library call returns normally (and with what value) or raises (and with what
exception text), exactly at the call sites where the Python code invokes it.
A FAISS index is modelled as the list of documents it owns; nearest-neighbor
ranking is a black-box function supplied by the ask-time environment.
-/

namespace RAG

/-- Role of a chat message as produced by `ChatMessageHistory`:
`add_user_message` stores type "human", `add_ai_message` stores type "ai". -/
inductive Role where
  | human
  | ai
deriving DecidableEq

/-- One stored chat message (role plus content). -/
structure Msg where
  role : Role
  content : String
deriving DecidableEq

/-- A document chunk as produced by `PyPDFLoader.load` (one per page).
Only `page_content` is ever read by the service code; the page-number
metadata attached by the loader is never consulted, so it is elided. -/
structure Doc where
  page_content : String
deriving DecidableEq

/-- The mutable state of a `RAGServiceModern` instance: the fields assigned
in `__init__` and mutated by the service methods.  A FAISS index is
represented by the documents it was built from; a retriever is an index
paired with its `k`; the rag_chain closure captures exactly the retriever
it was created from (index and k). -/
structure ServiceState where
  vector_db_path : String
  vectorstore : Option (List Doc)
  retriever : Option (List Doc × Nat)
  chat_history : List Msg
  rag_chain : Option (List Doc × Nat)
deriving DecidableEq

/-- The state right after `__init__`: no index, no retriever, no chain,
empty history. -/
def initState (path : String) : ServiceState :=
  { vector_db_path := path
    vectorstore := none
    retriever := none
    chat_history := []
    rag_chain := none }

/-- Result dictionary of `process_pdf`: either
`status success / message / num_documents` or `status error / message`. -/
inductive PdfResult where
  | success (message : String) (num_documents : Nat)
  | error (message : String)
deriving DecidableEq

/-- Whether a `process_pdf` result dictionary has `status == success`. -/
def PdfResult.isSuccess : PdfResult → Bool
  | PdfResult.success _ _ => true
  | PdfResult.error _ => false

/-- Result dictionary with just `status` and `message`
(`load_existing_vectorstore`, `clear_session`). -/
inductive MsgResult where
  | success (message : String)
  | error (message : String)
deriving DecidableEq

/-- Result dictionary of `ask_question`: on success
`status success / question / answer`, otherwise `status error / message`. -/
inductive AskResult where
  | success (question : String) (answer : String)
  | error (message : String)
deriving DecidableEq

/-- Oracle for one `process_pdf` call: outcome of `PyPDFLoader(...).load()`
(the loaded pages, or the exception text it raises), of
`FAISS.from_documents` (None, or the exception text), and of
`FAISS.save_local` (None, or the exception text). -/
structure PdfEnv where
  loadResult : Except String (List Doc)
  buildErr : Option String
  saveErr : Option String

/-- Oracle for one `load_existing_vectorstore` call: whether
`os.path.exists(vector_db_path)` holds, and the outcome of
`FAISS.load_local` (index contents, or exception text). -/
structure LoadEnv where
  pathExists : Bool
  loadResult : Except String (List Doc)

/-- Oracle for one `clear_session` call: `none` when the
`shutil.rmtree` / `os.makedirs` filesystem block returns normally,
`some e` when it raises with text `e`.  The in-memory assignments precede
that block, so they happen either way. -/
structure ClearEnv where
  fsErr : Option String
deriving DecidableEq

/-- Prompt assembled by the `ChatPromptTemplate` of `_create_rag_chain`:
the system message with the context substituted in, the chat-history
placeholder filled with the current history, and the human question. -/
structure Prompt where
  system : String
  history : List Msg
  question : String

/-- The fixed system template of `_create_rag_chain` with `context`
substituted for its placeholder. -/
def systemTemplate (context : String) : String :=
  "You are a helpful assistant that answers questions based on the provided context. \nUse the following pieces of context to answer the question. \nIf you don't know the answer based on the context, say so - don't make up information.\n\nContext: " ++ context

/-- `format_docs` from `_create_rag_chain`: join the retrieved chunks'
`page_content` with double newlines. -/
def format_docs (docs : List Doc) : String :=
  String.intercalate "\n\n" (docs.map Doc.page_content)

/-- Oracle for one `ask_question` call: the FAISS similarity search behind
the retriever (given the index contents, the query text and k, returns the
ranked chunks) and the Ollama generation backend (given the assembled
prompt, returns the answer text or raises with the given exception text). -/
structure AskEnv where
  search : List Doc → String → Nat → List Doc
  generate : Prompt → Except String String

/-- The prompt the rag_chain hands to the generation backend when invoked
on `question`: context is the retrieved chunks (raw question as query,
top k) joined by double newlines, the history placeholder is the current
chat history, and the human slot is the question itself. -/
def assembledPrompt (env : AskEnv) (index : List Doc) (k : Nat)
    (history : List Msg) (question : String) : Prompt :=
  Prompt.mk (systemTemplate (format_docs (env.search index question k))) history question

/-- `rag_chain.invoke(question)`: retrieval, prompt assembly and generation.
Fails exactly when the generation backend raises. -/
def chainInvoke (env : AskEnv) (index : List Doc) (k : Nat)
    (history : List Msg) (question : String) : Except String String :=
  env.generate (assembledPrompt env index k history question)

/-- `_create_rag_chain`: no-op when the retriever is unset
(`if not self.retriever: return`), otherwise installs a chain capturing the
retriever. -/
def create_rag_chain (st : ServiceState) : ServiceState :=
  match st.retriever with
  | none => st
  | some r => { st with rag_chain := some r }

/-- `process_pdf`: load the PDF, build a FAISS index from the documents,
persist it, wrap it as a retriever with k = 3, rebuild the rag_chain.
Each external call may raise; a raise aborts the method at that point and
the `except` clause returns an error dictionary, leaving later assignments
undone. -/
def process_pdf (env : PdfEnv) (st : ServiceState) : ServiceState × PdfResult :=
  match env.loadResult with
  | Except.error e => (st, PdfResult.error ("Error processing PDF: " ++ e))
  | Except.ok documents =>
    match env.buildErr with
    | some e => (st, PdfResult.error ("Error processing PDF: " ++ e))
    | none =>
      let st1 := { st with vectorstore := some documents }
      match env.saveErr with
      | some e => (st1, PdfResult.error ("Error processing PDF: " ++ e))
      | none =>
        let st2 := { st1 with retriever := some (documents, 3) }
        (create_rag_chain st2,
          PdfResult.success
            ("PDF processed successfully. Loaded " ++ toString documents.length ++ " pages.")
            documents.length)

/-- `load_existing_vectorstore`: error if the storage directory is missing,
otherwise `FAISS.load_local` (which may raise), then retriever (k = 3) and
chain rebuild. -/
def load_existing_vectorstore (env : LoadEnv) (st : ServiceState) :
    ServiceState × MsgResult :=
  if env.pathExists then
    match env.loadResult with
    | Except.error e => (st, MsgResult.error ("Error loading vector store: " ++ e))
    | Except.ok docs =>
      let st1 := { st with vectorstore := some docs, retriever := some (docs, 3) }
      (create_rag_chain st1, MsgResult.success "Vector store loaded successfully")
  else
    (st, MsgResult.error "No existing vector store found")

/-- `ask_question`: guard on `rag_chain is None`, then invoke the chain;
on success append the (human, question) and (ai, answer) messages to the
history; a raise from the chain is converted to an error dictionary with
the history untouched. -/
def ask_question (env : AskEnv) (st : ServiceState) (question : String) :
    ServiceState × AskResult :=
  match st.rag_chain with
  | none => (st, AskResult.error "Please upload and process a PDF first")
  | some (index, k) =>
    match chainInvoke env index k st.chat_history question with
    | Except.ok answer =>
      ({ st with chat_history :=
          st.chat_history ++ [Msg.mk Role.human question, Msg.mk Role.ai answer] },
        AskResult.success question answer)
    | Except.error e => (st, AskResult.error ("Error processing question: " ++ e))

/-- Message `type` string stored by `ChatMessageHistory` for each role. -/
def Role.typeName : Role → String
  | Role.human => "human"
  | Role.ai => "ai"

/-- `get_chat_history`: the history as (type, content) dictionaries. -/
def get_chat_history (st : ServiceState) : List (String × String) :=
  st.chat_history.map (fun m => (m.role.typeName, m.content))

/-- `clear_session`: clear the history and null the retriever, vectorstore
and rag_chain (these in-memory mutations cannot raise), then remove and
recreate the persisted storage directory (which can raise, turning the
result into an error dictionary — but the in-memory state is already
cleared by then). -/
def clear_session (env : ClearEnv) (st : ServiceState) : ServiceState × MsgResult :=
  ({ st with chat_history := [], retriever := none, vectorstore := none, rag_chain := none },
    match env.fsErr with
    | some e => MsgResult.error ("Error clearing session: " ++ e)
    | none => MsgResult.success "Session cleared successfully")

/-- Status dictionary returned by `get_status` (read-only). -/
structure Status where
  vectorstore_loaded : Bool
  retriever_ready : Bool
  qa_chain_ready : Bool
  chat_history_length : Nat
deriving DecidableEq

/-- `get_status`: read-only introspection of the four fields. -/
def get_status (st : ServiceState) : Status :=
  { vectorstore_loaded := st.vectorstore.isSome
    retriever_ready := st.retriever.isSome
    qa_chain_ready := st.rag_chain.isSome
    chat_history_length := st.chat_history.length }

/-- Characters removed by Python's `str.strip()` (ASCII whitespace). -/
def pyIsSpace (c : Char) : Bool :=
  c = ' ' || c = '\t' || c = '\n' || c = '\r' || c = '\x0b' || c = '\x0c'

/-- Python `str.strip()`: drop leading and trailing whitespace. -/
def pyStrip (s : String) : String :=
  String.mk (((s.toList.dropWhile pyIsSpace).reverse.dropWhile pyIsSpace).reverse)

/-- HTTP outcome of the `/ask` endpoint: a 200 `QuestionResponse`, or an
`HTTPException` with a status code and detail string. -/
inductive HttpResponse where
  | ok (question : String) (answer : String)
  | httpError (status_code : Nat) (detail : String)
deriving DecidableEq

/-- HTTP status code carried by a response (200 for the success body). -/
def HttpResponse.code : HttpResponse → Nat
  | HttpResponse.ok _ _ => 200
  | HttpResponse.httpError c _ => c

/-- The `/ask` route handler of `app.py`: reject empty or whitespace-only
questions with 400 before calling the service; call
`rag_service.ask_question`; map any error result to a 400 HTTPException
with the result's message as detail; otherwise return the 200 body. -/
def askEndpoint (env : AskEnv) (st : ServiceState) (question : String) :
    ServiceState × HttpResponse :=
  if question = "" ∨ pyStrip question = "" then
    (st, HttpResponse.httpError 400 "Question cannot be empty")
  else
    match ask_question env st question with
    | (st1, AskResult.success q a) => (st1, HttpResponse.ok q a)
    | (st1, AskResult.error m) => (st1, HttpResponse.httpError 400 m)

/-- One mutating operation of the service or of the ask endpoint, with an
arbitrary oracle for its external calls (`get_status` and
`get_chat_history` are read-only and do not transition the state). -/
inductive Step : ServiceState → ServiceState → Prop where
  | pdf (env : PdfEnv) (st : ServiceState) : Step st (process_pdf env st).1
  | load (env : LoadEnv) (st : ServiceState) : Step st (load_existing_vectorstore env st).1
  | ask (env : AskEnv) (q : String) (st : ServiceState) : Step st (ask_question env st q).1
  | askApi (env : AskEnv) (q : String) (st : ServiceState) : Step st (askEndpoint env st q).1
  | clear (env : ClearEnv) (st : ServiceState) : Step st (clear_session env st).1

/-- States reachable from a freshly constructed service by any sequence of
operations under any oracles. -/
inductive Reachable : ServiceState → Prop where
  | init (p : String) : Reachable (initState p)
  | step {st st2 : ServiceState} : Reachable st → Step st st2 → Reachable st2

/-- The spec's session invariant: pipeline exists iff index exists. -/
def Inv (st : ServiceState) : Prop :=
  st.rag_chain.isSome = st.vectorstore.isSome

instance (st : ServiceState) : Decidable (Inv st) :=
  inferInstanceAs (Decidable (_ = _))

/-- The direction of the invariant the code does maintain everywhere:
a pipeline is only ever installed over an existing index. -/
def PipeNeedsIndex (st : ServiceState) : Prop :=
  st.rag_chain.isSome = true → st.vectorstore.isSome = true

instance (st : ServiceState) : Decidable (PipeNeedsIndex st) :=
  inferInstanceAs (Decidable (_ → _))

/-- Well-formed history: even length, alternating (human, ai) pairs
starting with a human turn. -/
def historyWF : List Msg → Bool
  | [] => true
  | [_] => false
  | m1 :: m2 :: rest => m1.role == Role.human && m2.role == Role.ai && historyWF rest

/-- No branch of `process_pdf` touches the chat history. -/
theorem process_pdf_hist (env : PdfEnv) (st : ServiceState) :
    (process_pdf env st).1.chat_history = st.chat_history := by
  cases hl : env.loadResult with
  | error e => simp [process_pdf, hl]
  | ok docs =>
    cases hb : env.buildErr with
    | some e => simp [process_pdf, hl, hb]
    | none =>
      cases hs : env.saveErr with
      | some e => simp [process_pdf, hl, hb, hs]
      | none => simp [process_pdf, create_rag_chain, hl, hb, hs]

/-- No branch of `load_existing_vectorstore` touches the chat history. -/
theorem load_existing_hist (env : LoadEnv) (st : ServiceState) :
    (load_existing_vectorstore env st).1.chat_history = st.chat_history := by
  by_cases hp : env.pathExists = true
  · cases hl : env.loadResult with
    | error e => simp [load_existing_vectorstore, hp, hl]
    | ok docs => simp [load_existing_vectorstore, create_rag_chain, hp, hl]
  · simp [load_existing_vectorstore, hp]

/-- `ask_question` either leaves the history unchanged (guard failure or
chain raise) or appends exactly the (human, question), (ai, answer) pair. -/
theorem ask_question_hist (env : AskEnv) (st : ServiceState) (q : String) :
    (ask_question env st q).1.chat_history = st.chat_history ∨
    ∃ a, (ask_question env st q).1.chat_history =
        st.chat_history ++ [Msg.mk Role.human q, Msg.mk Role.ai a] := by
  cases hc : st.rag_chain with
  | none => left; simp [ask_question, hc]
  | some r =>
    obtain ⟨idx, k⟩ := r
    cases hg : chainInvoke env idx k st.chat_history q with
    | error e => left; simp [ask_question, hc, hg]
    | ok a => right; exact ⟨a, by simp [ask_question, hc, hg]⟩

/-- `ask_question` never changes the vectorstore, retriever or rag_chain. -/
theorem ask_question_frame (env : AskEnv) (st : ServiceState) (q : String) :
    (ask_question env st q).1.vectorstore = st.vectorstore ∧
    (ask_question env st q).1.retriever = st.retriever ∧
    (ask_question env st q).1.rag_chain = st.rag_chain := by
  cases hc : st.rag_chain with
  | none => simp [ask_question, hc]
  | some r =>
    obtain ⟨idx, k⟩ := r
    cases hg : chainInvoke env idx k st.chat_history q <;>
      simp [ask_question, hc, hg]

/-- The endpoint either rejects without calling the service (state
untouched) or transitions exactly as `ask_question` does. -/
theorem askEndpoint_state (env : AskEnv) (st : ServiceState) (q : String) :
    (askEndpoint env st q).1 = st ∨
    (askEndpoint env st q).1 = (ask_question env st q).1 := by
  by_cases h : q = "" ∨ pyStrip q = ""
  · left; simp [askEndpoint, h]
  · right
    simp only [askEndpoint, if_neg h]
    rcases ha : ask_question env st q with ⟨st1, r⟩
    cases r <;> simp

/-- Appending one (human, ai) pair preserves history well-formedness. -/
theorem historyWF_append (q a : String) :
    ∀ (h : List Msg), historyWF h = true →
      historyWF (h ++ [Msg.mk Role.human q, Msg.mk Role.ai a]) = true
  | [], _ => by simp [historyWF]
  | [_], hwf => by simp [historyWF] at hwf
  | _ :: _ :: rest, hwf => by
    simp only [historyWF, List.cons_append, Bool.and_eq_true] at hwf ⊢
    exact ⟨hwf.1, historyWF_append q a rest hwf.2⟩

/-- A one-page document used for concrete evaluations. -/
def docA : Doc := Doc.mk "alpha page"

/-- A concrete similarity search: rank by stored order, cut at k. -/
def searchTake : List Doc → String → Nat → List Doc :=
  fun idx _ k => idx.take k

/-- A generation backend that always answers. -/
def genOk : Prompt → Except String String :=
  fun _ => Except.ok "the answer"

/-- A generation backend that always raises with text boom. -/
def genFail : Prompt → Except String String :=
  fun _ => Except.error "boom"

/-- Ask-time oracle with a healthy backend. -/
def envOk : AskEnv := AskEnv.mk searchTake genOk

/-- Ask-time oracle whose backend raises. -/
def envFail : AskEnv := AskEnv.mk searchTake genFail

/-- A post-ingest state: index, retriever (k = 3) and chain all present. -/
def stReady : ServiceState :=
  { vector_db_path := "vector_db"
    vectorstore := some [docA]
    retriever := some ([docA], 3)
    chat_history := []
    rag_chain := some ([docA], 3) }

/-- Ingest oracle in which every external call succeeds. -/
def pdfEnvOk : PdfEnv :=
  { loadResult := Except.ok [docA], buildErr := none, saveErr := none }

/-- Ingest oracle in which loading and index build succeed but
`save_local` raises (for example, disk full). -/
def pdfEnvSaveFail : PdfEnv :=
  { loadResult := Except.ok [docA], buildErr := none, saveErr := some "disk full" }

/-- C1: when no document has been ingested (rag_chain is None),
`ask_question` on any question returns the error result "Please upload and
process a PDF first" and leaves the state — in particular the conversation
history — unchanged.  The oracle `env` (similarity search and generation
backend) is universally quantified and absent from the right-hand side, so
the generation backend is never consulted. -/
theorem C1_no_document_guard (env : AskEnv) (st : ServiceState) (q : String)
    (hchain : st.rag_chain = none) :
    ask_question env st q =
      (st, AskResult.error "Please upload and process a PDF first") := by
  simp [ask_question, hchain]

/-- Witness for C1 at the freshly initialized state and a concrete
non-empty question. -/
theorem C1_no_document_guard_witness :
    ask_question envFail (initState "vector_db") "What is this about?" =
      (initState "vector_db", AskResult.error "Please upload and process a PDF first") :=
  C1_no_document_guard envFail (initState "vector_db") "What is this about?" rfl

/-- C3: whenever `ask_question` returns a success result, the history grew
by exactly the two entries (human, question) then (ai, answer) appended at
the end, all earlier entries unchanged, so its length increased by 2. -/
theorem C3_success_appends_pair (env : AskEnv) (st : ServiceState) (q ans : String)
    (h : (ask_question env st q).2 = AskResult.success q ans) :
    (ask_question env st q).1.chat_history =
        st.chat_history ++ [Msg.mk Role.human q, Msg.mk Role.ai ans] ∧
    (ask_question env st q).1.chat_history.length = st.chat_history.length + 2 := by
  cases hc : st.rag_chain with
  | none => simp [ask_question, hc] at h
  | some r =>
    obtain ⟨idx, k⟩ := r
    cases hg : chainInvoke env idx k st.chat_history q with
    | error e => simp [ask_question, hc, hg] at h
    | ok a =>
      have ha : a = ans := by simpa [ask_question, hc, hg] using h
      subst ha
      constructor
      · simp [ask_question, hc, hg]
      · simp [ask_question, hc, hg]

/-- Witness for C3: a ready state with a healthy backend answers and the
history becomes exactly the appended pair. -/
theorem C3_success_appends_pair_witness :
    (ask_question envOk stReady "Hi").1.chat_history =
        stReady.chat_history ++ [Msg.mk Role.human "Hi", Msg.mk Role.ai "the answer"] ∧
    (ask_question envOk stReady "Hi").1.chat_history.length =
        stReady.chat_history.length + 2 :=
  C3_success_appends_pair envOk stReady "Hi" "the answer" rfl

/-- C4: the ask endpoint rejects every question whose Python `strip()` is
empty (this includes the empty question) with a 400 "Question cannot be
empty" before calling the service: the state — index and history — is
returned unchanged, and the right-hand side does not depend on the oracle
or on whether an index exists, so the rejection takes priority over the
no-document guard. -/
theorem C4_blank_question_rejected (env : AskEnv) (st : ServiceState) (q : String)
    (h : pyStrip q = "") :
    askEndpoint env st q =
      (st, HttpResponse.httpError 400 "Question cannot be empty") := by
  simp [askEndpoint, h]

/-- Witness for C4 at a whitespace-only question and the pre-ingest state. -/
theorem C4_blank_question_rejected_witness :
    askEndpoint envFail (initState "vector_db") " " =
      (initState "vector_db", HttpResponse.httpError 400 "Question cannot be empty") :=
  C4_blank_question_rejected envFail (initState "vector_db") " " (by decide)

/-- C5: when the generation backend raises while answering, `ask_question`
returns an error result wrapping the exception text ("Error processing
question: ...") and the state — in particular the history — is unchanged:
the two appends happen only after a successful invoke. -/
theorem C5_generation_failure_atomic (env : AskEnv) (st : ServiceState)
    (q e : String) (idx : List Doc) (k : Nat)
    (hchain : st.rag_chain = some (idx, k))
    (hgen : env.generate (assembledPrompt env idx k st.chat_history q) =
      Except.error e) :
    ask_question env st q =
      (st, AskResult.error ("Error processing question: " ++ e)) := by
  simp [ask_question, hchain, chainInvoke, hgen]

/-- Witness for C5: a ready state with a raising backend. -/
theorem C5_generation_failure_atomic_witness :
    ask_question envFail stReady "What is this about?" =
      (stReady, AskResult.error ("Error processing question: " ++ "boom")) :=
  C5_generation_failure_atomic envFail stReady "What is this about?" "boom"
    [docA] 3 rfl rfl

/-- C6: `clear_session` is idempotent on the session state (under any
filesystem oracles), and the status read after it reports no index, no
retriever, no pipeline and an empty history. -/
theorem C6_reset_idempotent (e1 e2 : ClearEnv) (st : ServiceState) :
    (clear_session e2 (clear_session e1 st).1).1 = (clear_session e1 st).1 ∧
    get_status (clear_session e1 st).1 =
      { vectorstore_loaded := false, retriever_ready := false,
        qa_chain_ready := false, chat_history_length := 0 } := by
  exact ⟨rfl, rfl⟩

/-- C7: `process_pdf` never touches the conversation history — in every
branch (success or any failure point) the history after equals the history
before. -/
theorem C7_ingest_preserves_history (env : PdfEnv) (st : ServiceState) :
    (process_pdf env st).1.chat_history = st.chat_history :=
  process_pdf_hist env st

/-- The three possible post-states of `process_pdf`: unchanged (load or
index build raised), index assigned but retriever and chain untouched
(`save_local` raised after the assignment), or fully rebuilt (success). -/
theorem process_pdf_state (env : PdfEnv) (st : ServiceState) :
    (process_pdf env st).1 = st ∨
    (∃ docs, (process_pdf env st).1 = { st with vectorstore := some docs }) ∨
    (∃ docs, (process_pdf env st).1 =
      { st with
          vectorstore := some docs
          retriever := some (docs, 3)
          rag_chain := some (docs, 3) }) := by
  cases hl : env.loadResult with
  | error e => left; simp [process_pdf, hl]
  | ok docs =>
    cases hb : env.buildErr with
    | some e => left; simp [process_pdf, hl, hb]
    | none =>
      cases hs : env.saveErr with
      | some e =>
        right; left; exact ⟨docs, by simp [process_pdf, hl, hb, hs]⟩
      | none =>
        right; right
        exact ⟨docs, by simp [process_pdf, create_rag_chain, hl, hb, hs]⟩

/-- A successful `process_pdf` ends in the fully rebuilt state. -/
theorem process_pdf_success_state (env : PdfEnv) (st : ServiceState)
    (h : (process_pdf env st).2.isSuccess = true) :
    ∃ docs, (process_pdf env st).1 =
      { st with
          vectorstore := some docs
          retriever := some (docs, 3)
          rag_chain := some (docs, 3) } := by
  cases hl : env.loadResult with
  | error e => simp [process_pdf, hl, PdfResult.isSuccess] at h
  | ok docs =>
    cases hb : env.buildErr with
    | some e => simp [process_pdf, hl, hb, PdfResult.isSuccess] at h
    | none =>
      cases hs : env.saveErr with
      | some e => simp [process_pdf, hl, hb, hs, PdfResult.isSuccess] at h
      | none =>
        exact ⟨docs, by simp [process_pdf, create_rag_chain, hl, hb, hs]⟩

/-- The two possible post-states of `load_existing_vectorstore`:
unchanged, or fully rebuilt. -/
theorem load_existing_state (env : LoadEnv) (st : ServiceState) :
    (load_existing_vectorstore env st).1 = st ∨
    (∃ docs, (load_existing_vectorstore env st).1 =
      { st with
          vectorstore := some docs
          retriever := some (docs, 3)
          rag_chain := some (docs, 3) }) := by
  by_cases hp : env.pathExists = true
  · cases hl : env.loadResult with
    | error e => left; simp [load_existing_vectorstore, hp, hl]
    | ok docs =>
      right
      exact ⟨docs, by simp [load_existing_vectorstore, create_rag_chain, hp, hl]⟩
  · left; simp [load_existing_vectorstore, hp]

/-- One step preserves the pipeline-requires-index direction. -/
theorem step_pipe {s s2 : ServiceState} (hstep : Step s s2)
    (ih : PipeNeedsIndex s) : PipeNeedsIndex s2 := by
  cases hstep with
  | pdf env =>
    rcases process_pdf_state env s with h1 | ⟨docs, h1⟩ | ⟨docs, h1⟩ <;> rw [h1]
    · exact ih
    · intro _; rfl
    · intro _; rfl
  | load env =>
    rcases load_existing_state env s with h1 | ⟨docs, h1⟩ <;> rw [h1]
    · exact ih
    · intro _; rfl
  | ask env q =>
    intro hh
    rw [(ask_question_frame env s q).2.2] at hh
    rw [(ask_question_frame env s q).1]
    exact ih hh
  | askApi env q =>
    rcases askEndpoint_state env s q with h1 | h1 <;> rw [h1]
    · exact ih
    · intro hh
      rw [(ask_question_frame env s q).2.2] at hh
      rw [(ask_question_frame env s q).1]
      exact ih hh
  | clear env => intro hh; simp [clear_session] at hh

/-- Every reachable state has a pipeline only over an existing index. -/
theorem reachable_pipe (st : ServiceState) (h : Reachable st) :
    PipeNeedsIndex st := by
  induction h with
  | init p => intro hh; simp [initState] at hh
  | step hR hstep ih => exact step_pipe hstep ih

/-- One step preserves history well-formedness. -/
theorem step_histWF {s s2 : ServiceState} (hstep : Step s s2)
    (ih : historyWF s.chat_history = true) : historyWF s2.chat_history = true := by
  cases hstep with
  | pdf env => rw [process_pdf_hist]; exact ih
  | load env => rw [load_existing_hist]; exact ih
  | ask env q =>
    rcases ask_question_hist env s q with h1 | ⟨a, h1⟩
    · rw [h1]; exact ih
    · rw [h1]; exact historyWF_append q a _ ih
  | askApi env q =>
    rcases askEndpoint_state env s q with h1 | h1
    · rw [h1]; exact ih
    · rw [h1]
      rcases ask_question_hist env s q with h2 | ⟨a, h2⟩
      · rw [h2]; exact ih
      · rw [h2]; exact historyWF_append q a _ ih
  | clear env => rfl

/-- C2 counterexample: from the freshly initialized (empty) state, a
`process_pdf` call in which the PDF loads and the index builds but
`save_local` raises (for example, disk full) leaves `vectorstore` set while
`rag_chain` is still None — the claimed iff-invariant holds before the call
and is violated after it. -/
theorem C2_counterexample_save_failure :
    Inv (initState "vector_db") ∧
    ¬ Inv (process_pdf pdfEnvSaveFail (initState "vector_db")).1 := by
  constructor
  · decide
  · decide

/-- C2 (amended): the invariant holds in the initial state; the direction
"pipeline requires index" holds in every reachable state; the full iff is
preserved by `load_existing_vectorstore`, `ask_question`, the ask endpoint
and `clear_session` under any oracle, by `process_pdf` whenever it
succeeds, and by `process_pdf` from any state that already has an index.
It is not preserved by a `process_pdf` from the empty state that fails
after building the index (the counterexample). -/
theorem C2_amended_invariant (p : String) (st : ServiceState) (hst : Inv st) :
    Inv (initState p) ∧
    (∀ st2 : ServiceState, Reachable st2 → PipeNeedsIndex st2) ∧
    (∀ le : LoadEnv, Inv (load_existing_vectorstore le st).1) ∧
    (∀ ae : AskEnv, ∀ q : String, Inv (ask_question ae st q).1) ∧
    (∀ ae : AskEnv, ∀ q : String, Inv (askEndpoint ae st q).1) ∧
    (∀ ce : ClearEnv, Inv (clear_session ce st).1) ∧
    (∀ pe : PdfEnv, (process_pdf pe st).2.isSuccess = true →
      Inv (process_pdf pe st).1) ∧
    (∀ pe : PdfEnv, st.vectorstore.isSome = true → Inv (process_pdf pe st).1) := by
  refine ⟨rfl, fun st2 h => reachable_pipe st2 h, ?_, ?_, ?_, ?_, ?_, ?_⟩
  · intro le
    rcases load_existing_state le st with h1 | ⟨docs, h1⟩ <;> rw [h1]
    · exact hst
    · exact rfl
  · intro ae q
    show (ask_question ae st q).1.rag_chain.isSome =
      (ask_question ae st q).1.vectorstore.isSome
    rw [(ask_question_frame ae st q).2.2, (ask_question_frame ae st q).1]
    exact hst
  · intro ae q
    rcases askEndpoint_state ae st q with h1 | h1 <;> rw [h1]
    · exact hst
    · show (ask_question ae st q).1.rag_chain.isSome =
        (ask_question ae st q).1.vectorstore.isSome
      rw [(ask_question_frame ae st q).2.2, (ask_question_frame ae st q).1]
      exact hst
  · intro ce; exact rfl
  · intro pe h
    obtain ⟨docs, h1⟩ := process_pdf_success_state pe st h
    rw [h1]; exact rfl
  · intro pe hvs
    rcases process_pdf_state pe st with h1 | ⟨docs, h1⟩ | ⟨docs, h1⟩ <;> rw [h1]
    · exact hst
    · show st.rag_chain.isSome = true
      rw [hst]; exact hvs
    · exact rfl

/-- Witness for C2 (amended) at the initial state: `clear_session`
re-establishes the invariant. -/
theorem C2_amended_invariant_witness :
    Inv (clear_session (ClearEnv.mk none) (initState "vector_db")).1 :=
  (C2_amended_invariant "vector_db" (initState "vector_db")
    (by decide)).2.2.2.2.2.1 (ClearEnv.mk none)

/-- C8: after any successful ingest of `docs`, asking `q` invokes the
generation backend on exactly one prompt: its context is the chunks
returned by the similarity search for the raw question text with k = 3,
joined in ranked order by double newlines (no truncation, no
deduplication), its history slot is the current history and its human slot
is the question; the overall outcome is fully determined by that one
backend call. -/
theorem C8_retrieval_context (env : AskEnv) (pe : PdfEnv) (st : ServiceState)
    (docs : List Doc) (q : String)
    (hl : pe.loadResult = Except.ok docs) (hb : pe.buildErr = none)
    (hs : pe.saveErr = none) :
    ask_question env (process_pdf pe st).1 q =
      match env.generate
          (Prompt.mk
            (systemTemplate
              (String.intercalate "\n\n"
                (List.map Doc.page_content (env.search docs q 3))))
            st.chat_history q) with
      | Except.ok a =>
        ({ st with
            vectorstore := some docs
            retriever := some (docs, 3)
            rag_chain := some (docs, 3)
            chat_history :=
              st.chat_history ++ [Msg.mk Role.human q, Msg.mk Role.ai a] },
          AskResult.success q a)
      | Except.error e =>
        ({ st with
            vectorstore := some docs
            retriever := some (docs, 3)
            rag_chain := some (docs, 3) },
          AskResult.error ("Error processing question: " ++ e)) := by
  have hstate : (process_pdf pe st).1 =
      { st with
          vectorstore := some docs
          retriever := some (docs, 3)
          rag_chain := some (docs, 3) } := by
    simp [process_pdf, create_rag_chain, hl, hb, hs]
  rw [hstate]
  cases hg : env.generate
      (Prompt.mk
        (systemTemplate
          (String.intercalate "\n\n"
            (List.map Doc.page_content (env.search docs q 3))))
        st.chat_history q) with
  | ok a => simp [ask_question, chainInvoke, assembledPrompt, format_docs, hg]
  | error e => simp [ask_question, chainInvoke, assembledPrompt, format_docs, hg]

/-- Witness for C8: concrete ingest then a concrete question, evaluated to
the concrete final state and answer. -/
theorem C8_retrieval_context_witness :
    ask_question envOk (process_pdf pdfEnvOk (initState "vector_db")).1 "Hi" =
      ({ vector_db_path := "vector_db"
         vectorstore := some [docA]
         retriever := some ([docA], 3)
         chat_history := [Msg.mk Role.human "Hi", Msg.mk Role.ai "the answer"]
         rag_chain := some ([docA], 3) },
        AskResult.success "Hi" "the answer") :=
  (C8_retrieval_context envOk pdfEnvOk (initState "vector_db") [docA] "Hi"
    rfl rfl rfl).trans rfl

/-- C9 counterexample: with an ingested document and a backend that raises,
the ask endpoint surfaces the generation failure with HTTP status 400, not
the 500 the claim assigns to backend/processing failures. -/
theorem C9_counterexample_generation_400 :
    HttpResponse.code (askEndpoint envFail stReady "What is this about?").2 = 400 ∧
    HttpResponse.code (askEndpoint envFail stReady "What is this about?").2 ≠ 500 := by
  constructor
  · decide
  · decide

/-- C9 (amended): the ask endpoint returns 400 for blank questions, 400
for the no-document precondition, and also 400 (not 500) for generation
backend failures — it maps every error result of the service to 400 — and
200 with the answer body on success. -/
theorem C9_amended_status_codes (env : AskEnv) (st : ServiceState) (q : String) :
    (pyStrip q = "" → HttpResponse.code (askEndpoint env st q).2 = 400) ∧
    (pyStrip q ≠ "" → st.rag_chain = none →
      HttpResponse.code (askEndpoint env st q).2 = 400) ∧
    (∀ idx : List Doc, ∀ k : Nat, ∀ e : String, pyStrip q ≠ "" →
      st.rag_chain = some (idx, k) →
      env.generate (assembledPrompt env idx k st.chat_history q) = Except.error e →
      HttpResponse.code (askEndpoint env st q).2 = 400) ∧
    (∀ idx : List Doc, ∀ k : Nat, ∀ a : String, pyStrip q ≠ "" →
      st.rag_chain = some (idx, k) →
      env.generate (assembledPrompt env idx k st.chat_history q) = Except.ok a →
      (askEndpoint env st q).2 = HttpResponse.ok q a) := by
  have hcond : pyStrip q ≠ "" → ¬(q = "" ∨ pyStrip q = "") := by
    intro hq hor
    rcases hor with h1 | h2
    · exact hq (by rw [h1]; rfl)
    · exact hq h2
  refine ⟨?_, ?_, ?_, ?_⟩
  · intro h
    simp [askEndpoint, h, HttpResponse.code]
  · intro hq hno
    simp [askEndpoint, hcond hq, ask_question, hno, HttpResponse.code]
  · intro idx k e hq hchain hgen
    simp [askEndpoint, hcond hq, ask_question, hchain, chainInvoke, hgen,
      HttpResponse.code]
  · intro idx k a hq hchain hgen
    simp [askEndpoint, hcond hq, ask_question, hchain, chainInvoke, hgen]

/-- Witness for C9 (amended): the empty question gets a 400. -/
theorem C9_amended_status_codes_witness :
    HttpResponse.code (askEndpoint envFail stReady "").2 = 400 :=
  (C9_amended_status_codes envFail stReady "").1 rfl

/-- C10: in every reachable session state the conversation history is an
alternating sequence of (human, ai) pairs starting with a human turn (so
in particular of even length) — the operations either leave the history
alone, append one such pair on a successful answer, or clear it. -/
theorem C10_history_alternation (st : ServiceState) (h : Reachable st) :
    historyWF st.chat_history = true := by
  induction h with
  | init p => rfl
  | step hR hstep ih => exact step_histWF hstep ih

/-- Witness for C10 at the reachable initial state. -/
theorem C10_history_alternation_witness :
    historyWF (initState "vector_db").chat_history = true :=
  C10_history_alternation (initState "vector_db") (Reachable.init "vector_db")

end RAG
